import Mathlib

/-!
# A shallow embedding of the redux state-container core

This file embeds the two source files of the repository — `createStore.js`
(store engine: `dispatch`, `subscribe`, the unsubscribe closure, the
`observable` adapter) and the unnamed module containing `combineReducers`,
`applyMiddleware` and `compose` — and proves properties of the embedding.

Modelling conventions:
* JavaScript runtime values that flow through the untyped boundaries
  (actions, observers) are modelled by the inductive `JSVal`, with `typeOf`
  mirroring the JavaScript `typeof` operator (in particular
  `typeof null = "object"`).
* JavaScript **reference identity** on the opaque sub-state values handled
  by reducers is modelled by equality on an abstract type `σ`: each distinct
  JS object reference is a distinct atom of `σ`.  A reducer returning "the
  same reference" returns an equal atom; returning a "new object" returns a
  different atom.
* Exceptions are modelled with `Except Err`; a function that may throw
  returns `Except Err α` and a thrown error propagates as `.error e`.
* Freshly allocated top-level objects (the `nextState` object built by
  `combination`) are distinguished from the incoming `state` object by the
  constructors of `CombRes`: `.same` is "returned the incoming object by
  identity" and `.new fields` is "returned a freshly constructed object",
  which is never reference-equal to a pre-existing object.
-/

/-- Errors thrown by the core, by kind.  Message texts are not modelled;
`thrown n` stands for an arbitrary user exception raised by a reducer. -/
inductive Err where
  | invalidAction
  | missingActionType
  | reentrantDispatch
  | reentrantRead
  | reentrantSubscribe
  | reentrantUnsubscribe
  | invalidObserver
  | typeErrorNullRead
  | notAFunction
  | reducerUndefinedInit (key : String)
  | reducerUndefinedProbe (key : String)
  | reducerReturnedUndefined (key : String)
  | dispatchDuringMiddlewareConstruction
  | thrown (tag : Nat)
  deriving DecidableEq, Repr

/-- JavaScript runtime values, as far as the core inspects them.  Objects
carry a `plain` flag (`true` for plain structured records, `false` for
exotic objects such as arrays) and an association list of own fields whose
values are themselves `JSVal`s.  Functions are opaque, identified by a tag. -/
inductive JSVal where
  | undefined
  | null
  | boolean (b : Bool)
  | number (n : Int)
  | string (s : String)
  | func (id : Nat)
  | object (plain : Bool) (fields : List (String × JSVal))

/-- The JavaScript `typeof` operator on the modelled values.  Note
`typeof null` is `"object"`. -/
def typeOf : JSVal → String
  | .undefined => "undefined"
  | .null => "object"
  | .boolean _ => "boolean"
  | .number _ => "number"
  | .string _ => "string"
  | .func _ => "function"
  | .object _ _ => "object"

/-- JavaScript truthiness of the modelled values. -/
def truthy : JSVal → Bool
  | .undefined => false
  | .null => false
  | .boolean b => b
  | .number n => n != 0
  | .string s => s != ""
  | .func _ => true
  | .object _ _ => true

/-- Reading an own field of an object; a missing field reads as `undefined`
(`fields.lookup` takes the first binding, as JS object keys are unique). -/
def objField (fields : List (String × JSVal)) (k : String) : JSVal :=
  (fields.lookup k).getD .undefined

/-- Property read `v[k]` at the JS level: throws a `TypeError` when the base
is `null` or `undefined`; on primitives the read boxes and yields
`undefined` (no own fields are modelled on primitives). -/
def getField (v : JSVal) (k : String) : Except Err JSVal :=
  match v with
  | .null => .error .typeErrorNullRead
  | .undefined => .error .typeErrorNullRead
  | .object _ fields => .ok (objField fields k)
  | _ => .ok .undefined

/-- Modelled from the spec: `utils/isPlainObject` (not under `src/`) — an
action "must be a plain structured record, not an opaque/exotic object, not
a primitive". -/
def isPlainObject : JSVal → Bool
  | .object plain _ => plain
  | _ => false

/-- `v` is the absent sentinel `undefined`. -/
def isUndef : JSVal → Bool
  | .undefined => true
  | _ => false

/-- Modelled from the spec: `utils/actionTypes` (not under `src/`) — the
reserved initialization action type. -/
def initActionType : String := "@@redux/INIT"

/-- Modelled from the spec: `utils/actionTypes` (not under `src/`) — the
reserved replace action type. -/
def replaceActionType : String := "@@redux/REPLACE"

/-! ## compose (source: `compose`, unnamed module lines 240-250)

`compose(...funcs)`: zero functions yield the identity arrow, one function
is returned unchanged, otherwise `funcs.reduce((a, b) => (...args) =>
a(b(...args)))`.  JavaScript `arr.reduce(f)` without an initial value folds
`f` from the left starting at `arr[0]`, which is the `List.foldl` below. -/

/-- Embedding of `compose` on unary functions. -/
def compose {α : Type u} : List (α → α) → (α → α)
  | [] => fun arg => arg
  | [f] => f
  | f :: rest => rest.foldl (fun a b => fun x => a (b x)) f

/-! ## Store engine (source: `createStore.js`)

The closure-held mutable variables of `createStore` become the fields of
`Store`.  Listeners are callable values identified by `ListenerId` tags;
what a listener *does* when invoked is supplied separately to `dispatch`
as a behaviour map (a list of registry operations), since the only store
operations a listener may perform during notification are `subscribe` and
`unsubscribe` — the source forbids `dispatch` and `getState` from inside a
reducer, and listeners in the claims only touch the registry.

The JS arrays `currentListeners` and `nextListeners` are modelled as lists
plus an `aliased` flag recording whether the two variables currently hold
the *same array object* (as after `currentListeners = nextListeners`);
`ensureCanMutateNextListeners` copies exactly when they are aliased, so a
mutation of `nextListeners` never writes through to the array that
`currentListeners` (and the notification loop's `listeners` snapshot)
point at. -/

abbrev ListenerId := Nat

/-- The closure state of one store instance. -/
structure Store (σ : Type) where
  currentState : σ
  isDispatching : Bool
  currentListeners : List ListenerId
  nextListeners : List ListenerId
  aliased : Bool
  deriving Repr, DecidableEq

/-- A reducer as invoked by the store: it may throw (`.error`). -/
abbrev Reducer (σ : Type) := σ → JSVal → Except Err σ

/-- `ensureCanMutateNextListeners`: if `nextListeners` is the same array as
`currentListeners`, replace it by a copy (contents unchanged, identity
severed). -/
def ensureCanMutateNextListeners (st : Store σ) : Store σ :=
  if st.aliased then { st with nextListeners := st.currentListeners, aliased := false }
  else st

/-- The mutation performed by `subscribe` once its guards have passed:
`ensureCanMutateNextListeners(); nextListeners.push(listener)`. -/
def pushListener (l : ListenerId) (st : Store σ) : Store σ :=
  let st := ensureCanMutateNextListeners st
  { st with nextListeners := st.nextListeners ++ [l] }

/-- The mutation performed by the unsubscribe closure once its guards have
passed: `ensureCanMutateNextListeners(); const index =
nextListeners.indexOf(listener); nextListeners.splice(index, 1)`.  When the
listener is absent, `indexOf` is `-1` and `splice(-1, 1)` removes the last
element (a no-op on an empty array). -/
def spliceListener (l : ListenerId) (st : Store σ) : Store σ :=
  let st := ensureCanMutateNextListeners st
  { st with nextListeners :=
      if st.nextListeners.contains l then st.nextListeners.erase l
      else st.nextListeners.dropLast }

/-- `getState()`: throws while a reducer is executing, else returns
`currentState`. -/
def getState (st : Store σ) : Except Err σ :=
  if st.isDispatching then .error .reentrantRead
  else .ok st.currentState

/-- `subscribe(listener)`: throws while dispatching, else registers the
listener on `nextListeners`.  (The `typeof listener !== 'function'` guard
is outside the model: every `ListenerId` stands for a callable.)  The
returned unsubscribe closure is modelled by `unsubscribe` below together
with its captured `isSubscribed` flag, initially `true`. -/
def subscribe (l : ListenerId) (st : Store σ) : Except Err (Store σ) :=
  if st.isDispatching then .error .reentrantSubscribe
  else .ok (pushListener l st)

/-- The unsubscribe closure returned by `subscribe`.  `isSubscribed` is the
closure's captured flag; the result carries the thrown error if any, the
updated flag, and the updated store.  Source order: the `isSubscribed`
short-circuit comes *before* the `isDispatching` guard. -/
def unsubscribe (l : ListenerId) (isSubscribed : Bool) (st : Store σ) :
    Except Err Unit × Bool × Store σ :=
  if !isSubscribed then (.ok (), isSubscribed, st)
  else if st.isDispatching then (.error .reentrantUnsubscribe, isSubscribed, st)
  else (.ok (), false, spliceListener l st)

/-- A registry operation a listener performs when invoked during the
notification phase. -/
inductive RegOp where
  | sub (l : ListenerId)
  | unsub (l : ListenerId)
  deriving Repr, DecidableEq

/-- Effect of one registry operation issued by a listener during the
notification loop.  At that point `isDispatching` has already been reset to
`false` (the `finally` ran before the loop), so the guard in `subscribe`
and the guards of a live unsubscribe closure pass and the mutation path
runs. -/
def runRegOp (st : Store σ) : RegOp → Store σ
  | .sub l => pushListener l st
  | .unsub l => spliceListener l st

/-- The notification loop of `dispatch`: invoke each listener of the
snapshot in order, threading the store through the listener's registry
operations.  The snapshot list itself is immutable here, as in the source:
every mutation goes through `ensureCanMutateNextListeners`, which severs
`nextListeners` from the array the loop iterates before writing to it. -/
def notify (beh : ListenerId → List RegOp) : List ListenerId → Store σ → Store σ
  | [], st => st
  | l :: rest, st => notify beh rest ((beh l).foldl runRegOp st)

/-- The fields of an action that passed the `isPlainObject` check. -/
def actionFields : JSVal → List (String × JSVal)
  | .object _ fields => fields
  | _ => []

/-- `dispatch(action)`.  Returns the result (the action on success, the
propagated error otherwise), the updated store, and — as the observable
invocation trace — the list of listeners invoked during the notification
phase, in order.  The `try { isDispatching = true; currentState =
currentReducer(currentState, action) } finally { isDispatching = false }`
block appears as: on a throwing reducer the error propagates with
`currentState` untouched and `isDispatching` reset; the transient `true`
value is unobservable because the reducer receives the state as an
argument rather than reading the store. -/
def dispatch (reducer : Reducer σ) (beh : ListenerId → List RegOp)
    (st : Store σ) (action : JSVal) :
    Except Err JSVal × Store σ × List ListenerId :=
  if !(isPlainObject action) then (.error .invalidAction, st, [])
  else if isUndef (objField (actionFields action) "type") then
    (.error .missingActionType, st, [])
  else if st.isDispatching then (.error .reentrantDispatch, st, [])
  else
    match reducer st.currentState action with
    | .error e => (.error e, { st with isDispatching := false }, [])
    | .ok s' =>
        let st1 : Store σ := { st with currentState := s', isDispatching := false }
        let listeners := st1.nextListeners
        let st2 : Store σ := { st1 with currentListeners := listeners, aliased := true }
        (.ok action, notify beh listeners st2, listeners)

/-! ## observable (source: `createStore.js` lines 200-231)

`observable().subscribe(observer)` checks `typeof observer !== 'object'`
(note `typeof null === 'object'`, so `null` passes this check), then runs
`observeState()` — which reads `observer.next` (a `TypeError` when
`observer` is `null`) and, when that value is truthy, calls
`observer.next(getState())` — and finally registers `observeState` as a
store listener via the outer `subscribe`.  The fresh `observeState` closure
is identified by a caller-supplied `ListenerId`. -/

/-- The subscription object returned on success: the listener the returned
`unsubscribe` closure would remove, and the state immediately delivered to
`observer.next` (`none` when `observer.next` was absent or falsy). -/
structure ObsSubscription (σ : Type) where
  unsubFor : ListenerId
  delivered : Option σ
  deriving Repr, DecidableEq

/-- `observeState()`: if `observer.next` is truthy, call
`observer.next(getState())`.  Reading `.next` throws on a `null` observer;
`getState()` throws while dispatching; calling a truthy non-function
throws.  Returns the delivered state, if any. -/
def observeState (st : Store σ) (observer : JSVal) : Except Err (Option σ) :=
  match getField observer "next" with
  | .error e => .error e
  | .ok nextV =>
      if truthy nextV then
        match getState st with
        | .error e => .error e
        | .ok s =>
            match nextV with
            | .func _ => .ok (some s)
            | _ => .error .notAFunction
      else .ok none

/-- The `subscribe` method of the object returned by `observable()`. -/
def observableSubscribe (st : Store σ) (observer : JSVal) (freshId : ListenerId) :
    Except Err (ObsSubscription σ) × Store σ :=
  if typeOf observer != "object" then (.error .invalidObserver, st)
  else
    match observeState st observer with
    | .error e => (.error e, st)
    | .ok delivered =>
        match subscribe freshId st with
        | .error e => (.error e, st)
        | .ok st' => (.ok { unsubFor := freshId, delivered := delivered }, st')

/-! ## combineReducers (source: unnamed module, lines 1-190)

Sub-reducers are `Option σ → JSVal → Option σ`: the `Option` on the input
is `state[key]`, which is `undefined` for an absent key, and `none` as a
result is the absent sentinel `undefined`.  The input mapping may contain
non-callable entries, modelled as `none`; `combineReducers` filters them
out into `finalReducers` (the development-mode warnings are side-channel
diagnostics and are not modelled).  The random probe type
`'@@redux/PROBE_UNKNOWN_ACTION_' + Math.random()...` is modelled by a
fixed unknown type string; the randomness only serves to make the type
unguessable by application reducers. -/

abbrev SubReducer (σ : Type) := Option σ → JSVal → Option σ

/-- The `{ type: ActionTypes.INIT }` probe action. -/
def initAction : JSVal := .object true [("type", .string initActionType)]

/-- The random-type probe action (randomness not modelled). -/
def probeAction : JSVal :=
  .object true [("type", .string "@@redux/PROBE_UNKNOWN_ACTION_model")]

/-- `assertReducerShape`: for each key in order, invoke the reducer with
`(undefined, INIT)` and throw if the result is `undefined`; then probe with
a random unknown type and throw if that result is `undefined`.  The result
is the first error thrown, if any (`Object.keys(...).forEach` propagates a
callback's exception immediately). -/
def assertReducerShape {σ : Type} : List (String × SubReducer σ) → Option Err
  | [] => none
  | (key, reducer) :: rest =>
      if (reducer none initAction).isNone then some (.reducerUndefinedInit key)
      else if (reducer none probeAction).isNone then some (.reducerUndefinedProbe key)
      else assertReducerShape rest

/-- The value `combineReducers` returns: the filtered `finalReducers`
mapping together with the cached `shapeAssertionError`, both captured by
the `combination` closure. -/
structure CombinedReducer (σ : Type) where
  finalReducers : List (String × SubReducer σ)
  shapeAssertionError : Option Err

/-- The filtering loop of `combineReducers`: keep only the callable entries
of the input mapping (`none` models a non-callable entry, which is dropped
with only a development-mode warning). -/
def finalReducersOf (reducers : List (String × Option (SubReducer σ))) :
    List (String × SubReducer σ) :=
  reducers.filterMap fun p => p.2.map fun r => (p.1, r)

/-- `combineReducers(reducers)`: keep only the callable entries, then run
the shape assertion inside `try`/`catch`, caching the caught error.  The
call itself always completes; the cached error is thrown later by
`combination`. -/
def combineReducers (reducers : List (String × Option (SubReducer σ))) :
    CombinedReducer σ :=
  { finalReducers := finalReducersOf reducers
    shapeAssertionError := assertReducerShape (finalReducersOf reducers) }

/-- The value returned by one call of the composed reducer `combination`,
distinguishing the two exits of `return hasChanged ? nextState : state`:
`.same` is the incoming `state` object returned by identity; `.new fields`
is the freshly allocated `nextState` object, never reference-equal to any
pre-existing object, holding exactly the bindings written by the loop. -/
inductive CombRes (σ : Type) where
  | same
  | new (fields : List (String × σ))
  deriving Repr, DecidableEq

/-- The main loop of `combination`: for each final-reducer key in order,
read `state[key]`, invoke the reducer, throw `ReducerReturnedUndefined` if
the result is the absent sentinel, record the binding in `nextState`, and
accumulate `hasChanged := hasChanged || nextStateForKey !==
previousStateForKey`.  Returns the `nextState` bindings and the final
`hasChanged` flag. -/
def combinationLoop [DecidableEq σ] (state : List (String × σ)) (action : JSVal) :
    List (String × SubReducer σ) → Except Err (List (String × σ) × Bool)
  | [] => .ok ([], false)
  | (key, reducer) :: rest =>
      let previousStateForKey := state.lookup key
      match reducer previousStateForKey action with
      | none => .error (.reducerReturnedUndefined key)
      | some nextStateForKey =>
          match combinationLoop state action rest with
          | .error e => .error e
          | .ok (fields, hasChanged) =>
              .ok ((key, nextStateForKey) :: fields,
                   (some nextStateForKey != previousStateForKey) || hasChanged)

/-- The composed reducer `combination(state = {}, action)`: re-throw the
cached shape-assertion error if present (on every invocation), else run the
per-key loop and return `hasChanged ? nextState : state`.  The
development-mode state-shape warnings are side-channel diagnostics and are
not modelled. -/
def combination [DecidableEq σ] (c : CombinedReducer σ) (state : List (String × σ))
    (action : JSVal) : Except Err (CombRes σ) :=
  match c.shapeAssertionError with
  | some e => .error e
  | none =>
      match combinationLoop state action c.finalReducers with
      | .error e => .error e
      | .ok (fields, hasChanged) => .ok (if hasChanged then .new fields else .same)

/-- Whether some final-reducer result differs by identity from its previous
per-key state (the value `hasChanged` ends up with when no reducer returned
the absent sentinel). -/
def changedAny [DecidableEq σ] (state : List (String × σ)) (action : JSVal)
    (reducers : List (String × SubReducer σ)) : Bool :=
  reducers.any fun p => p.2 (state.lookup p.1) action != state.lookup p.1

/-! ## applyMiddleware (source: unnamed module, lines 202-231)

A dispatch function takes the action and the ambient effect log and
returns the result (the action on success, as the base dispatch returns
its argument) together with the updated log; the log makes the middleware
side effects of the concrete scenario observable.  `applyMiddleware` builds
the `middlewareAPI` whose `dispatch` is the throwing stub, maps each
middleware over it to obtain the chain, and composes the chain over the
base store's dispatch with `compose`.  (The source later rebinds the local
`dispatch` variable so that `middlewareAPI.dispatch` forwards to the
finished chain; no claim exercises `middlewareAPI.dispatch` after
construction, so the stub is what the model keeps.) -/

abbrev DispatchFn (Act Log : Type) := Act → Log → Except Err Act × Log

/-- The restricted store view handed to each middleware factory. -/
structure MiddlewareAPI (σ Act Log : Type) where
  getState : Unit → σ
  dispatch : DispatchFn Act Log

/-- A middleware: `storeAPI => next => action => result`. -/
abbrev Middleware (σ Act Log : Type) :=
  MiddlewareAPI σ Act Log → DispatchFn Act Log → DispatchFn Act Log

/-- The slice of the base store that `applyMiddleware` uses and returns
(the remaining store surface is spread through unchanged). -/
structure MWStore (σ Act Log : Type) where
  getState : Unit → σ
  dispatch : DispatchFn Act Log

/-- The stub bound to `middlewareAPI.dispatch` while the chain is being
constructed. -/
def dispatchStub : DispatchFn Act Log :=
  fun _ log => (.error .dispatchDuringMiddlewareConstruction, log)

/-- The `middlewareAPI` object built for a given base store. -/
def middlewareAPIOf (store : MWStore σ Act Log) : MiddlewareAPI σ Act Log :=
  { getState := store.getState, dispatch := dispatchStub }

/-- `applyMiddleware(...middlewares)` applied to an already-constructed
base store: build the chain and replace `dispatch` by
`compose(...chain)(store.dispatch)`. -/
def applyMiddleware (middlewares : List (Middleware σ Act Log))
    (store : MWStore σ Act Log) : MWStore σ Act Log :=
  let middlewareAPI := middlewareAPIOf store
  let chain := middlewares.map fun middleware => middleware middlewareAPI
  let dispatch := compose chain store.dispatch
  { store with dispatch := dispatch }

/-! ## Concrete scenario values used by the claims -/

/-- A reducer that returns its state unchanged (never throws). -/
def idReducer : Reducer Nat := fun s _ => .ok s

/-- A plain action `{ type: "INC" }`. -/
def incAction : JSVal := .object true [("type", .string "INC")]

/-- A store with listeners `[1, 2]` registered and no dispatch in flight;
`currentListeners` and `nextListeners` are the same array, as after a
previous dispatch's notification phase. -/
def snapshotScenarioStore : Store Nat :=
  { currentState := 0, isDispatching := false,
    currentListeners := [1, 2], nextListeners := [1, 2], aliased := true }

/-- Listener behaviours for the snapshot scenario: `L1` unsubscribes `L2`
during the notification phase; `L2` does nothing. -/
def snapshotScenarioBeh : ListenerId → List RegOp :=
  fun l => if l = 1 then [.unsub 2] else []

/-- Middleware `mid1` of the log scenario: appends `"a"` to the shared log,
then forwards the action to the next link. -/
def mid1 : Middleware σ Act (List String) :=
  fun _ next => fun action log => next action (log ++ ["a"])

/-- Middleware `mid2` of the log scenario: appends `"b"` to the shared log,
then forwards the action to the next link. -/
def mid2 : Middleware σ Act (List String) :=
  fun _ next => fun action log => next action (log ++ ["b"])

/-- A base store for the log scenario whose dispatch returns the action and
leaves the log alone. -/
def logScenarioStore : MWStore Nat JSVal (List String) :=
  { getState := fun _ => 0, dispatch := fun action log => (.ok action, log) }

/-- A reducer that always throws the user exception tagged `7`. -/
def throwReducer : Reducer Nat := fun _ _ => .error (.thrown 7)

/-- A quiescent store holding state `5` with no listeners. -/
def plainStore : Store Nat :=
  { currentState := 5, isDispatching := false,
    currentListeners := [], nextListeners := [], aliased := true }

/-- A store observed in the middle of a reducer invocation
(`isDispatching` is `true`). -/
def dispatchingStore : Store Nat :=
  { currentState := 0, isDispatching := true,
    currentListeners := [3], nextListeners := [3], aliased := true }

/-- A well-formed observer: a plain record whose `next` field is a
function. -/
def goodObserver : JSVal := .object true [("next", .func 0)]

/-- A plain record observer whose `next` field is truthy but not
callable. -/
def badNextObserver : JSVal := .object true [("next", .number 1)]

/-- A sub-reducer that always allocates: it returns a value different from
every previous per-key state it is given. -/
def raBump : SubReducer Nat := fun s _ => some (s.getD 0 + 1)

/-- A sub-reducer that keeps its previous per-key state (and defaults to
`0` during initialization). -/
def rbKeep : SubReducer Nat := fun s _ => some (s.getD 0)

/-- A sub-reducer that returns the absent sentinel for every action,
failing both shape probes. -/
def rBad : SubReducer Nat := fun _ _ => none

/-- The two-key mapping of the reference-stability scenario. -/
def abMapping : List (String × Option (SubReducer Nat)) :=
  [("a", some raBump), ("b", some rbKeep)]

/-- The previous top-level state of the reference-stability scenario. -/
def abState : List (String × Nat) := [("a", 1), ("b", 2)]

/-! ## Theorems -/

/-- Helper: applying the reduce-built composite to an argument nests the
functions left-over-right, with the fold seed outermost. -/
theorem compose_foldl_apply {α : Type u} (rest : List (α → α)) (f : α → α) (x : α) :
    rest.foldl (fun a b => fun y => a (b y)) f x
      = f (rest.foldr (fun g acc => g acc) x) := by
  induction rest generalizing f with
  | nil => rfl
  | cons g rest ih => simp [List.foldl_cons, List.foldr_cons, ih]

/-- Helper: `compose funcs base` nests `funcs` with the first element
outermost and `base` innermost. -/
theorem compose_apply_foldr {α : Type u} (funcs : List (α → α)) (x : α) :
    compose funcs x = funcs.foldr (fun g acc => g acc) x := by
  match funcs with
  | [] => rfl
  | [f] => rfl
  | f :: g :: rest =>
      show (g :: rest).foldl _ f x = _
      rw [compose_foldl_apply]
      rfl

/-- C5: `compose()` is the identity function, `compose(f)` is `f` itself,
and `compose(f, g, h)(x) = f(g(h(x)))`: the rightmost function receives the
original argument and each result feeds the function to its left. -/
theorem compose_identity_single_triple :
    (∀ (α : Type) (x : α), compose [] x = x)
  ∧ (∀ (α : Type) (f : α → α), compose [f] = f)
  ∧ (∀ (α : Type) (f g h : α → α) (x : α), compose [f, g, h] x = f (g (h x))) :=
  ⟨fun _ _ => rfl, fun _ _ => rfl, fun _ _ _ _ _ => rfl⟩

/-- C6: in a store enhanced by `applyMiddleware(m1, ..., mn)`, the composed
dispatch nests the middleware in declaration order — the first middleware
is outermost (receives the dispatched action first), each link decides
whether to forward by calling the next one, and the base store's dispatch
is the innermost link; concretely, with `mid1` appending `"a"` and `mid2`
appending `"b"` to the shared log before forwarding, one dispatch through
`applyMiddleware(mid1, mid2)` produces the log `["a", "b"]` (and returns
the action, as the base dispatch does). -/
theorem applyMiddleware_declaration_order :
    (∀ (σ Act Log : Type) (middlewares : List (Middleware σ Act Log))
       (store : MWStore σ Act Log),
        (applyMiddleware middlewares store).dispatch =
          (middlewares.map fun m => m (middlewareAPIOf store)).foldr
            (fun w d => w d) store.dispatch)
  ∧ (applyMiddleware [mid1, mid2] logScenarioStore).dispatch incAction []
      = (.ok incAction, ["a", "b"]) := by
  constructor
  · intro σ Act Log middlewares store
    exact compose_apply_foldr _ _
  · rfl

/-- Helper: the value of `dispatch` when all guards pass and the reducer
returns normally. -/
theorem dispatch_eq_of_ok {σ : Type} (reducer : Reducer σ)
    (beh : ListenerId → List RegOp) (st : Store σ) (action : JSVal) (s' : σ)
    (hplain : isPlainObject action = true)
    (htype : isUndef (objField (actionFields action) "type") = false)
    (hnd : st.isDispatching = false)
    (hok : reducer st.currentState action = .ok s') :
    dispatch reducer beh st action =
      (.ok action,
       notify beh st.nextListeners
         { st with currentState := s', isDispatching := false,
                   currentListeners := st.nextListeners, aliased := true },
       st.nextListeners) := by
  simp [dispatch, hplain, htype, hnd, hok]

/-- Helper: the value of `dispatch` when all guards pass and the reducer
throws: the error propagates, `currentState` is untouched, and the
`finally` block has reset `isDispatching`; no listener is notified. -/
theorem dispatch_eq_of_throw {σ : Type} (reducer : Reducer σ)
    (beh : ListenerId → List RegOp) (st : Store σ) (action : JSVal) (e : Err)
    (hplain : isPlainObject action = true)
    (htype : isUndef (objField (actionFields action) "type") = false)
    (hnd : st.isDispatching = false)
    (hthrow : reducer st.currentState action = .error e) :
    dispatch reducer beh st action =
      (.error e, { st with isDispatching := false }, []) := by
  simp [dispatch, hplain, htype, hnd, hthrow]

/-- C4: for every valid action (a plain record with a defined `type`)
dispatched while no dispatch is in flight and whose reducer returns
normally (listeners, modelled as registry operations, never throw),
`dispatch(action)` returns exactly the action value it was given. -/
theorem dispatch_returns_action {σ : Type} (reducer : Reducer σ)
    (beh : ListenerId → List RegOp) (st : Store σ) (action : JSVal) (s' : σ)
    (hplain : isPlainObject action = true)
    (htype : isUndef (objField (actionFields action) "type") = false)
    (hnd : st.isDispatching = false)
    (hok : reducer st.currentState action = .ok s') :
    (dispatch reducer beh st action).1 = .ok action := by
  rw [dispatch_eq_of_ok reducer beh st action s' hplain htype hnd hok]

/-- Witness for C4 at a concrete input. -/
theorem dispatch_returns_action_witness :
    (dispatch idReducer snapshotScenarioBeh plainStore incAction).1 = .ok incAction :=
  dispatch_returns_action idReducer snapshotScenarioBeh plainStore incAction 5
    rfl rfl rfl rfl

/-- C1: if the reducer invocation inside `dispatch` throws, the exception
propagates, the store's `currentState` keeps its pre-dispatch value, and
`isDispatching` is `false` again (`finally` releases the guard on every
exit path), so a subsequent dispatch of a valid action with a non-throwing
reducer succeeds normally. -/
theorem dispatch_reducer_throw_safety {σ : Type} (reducer : Reducer σ)
    (beh : ListenerId → List RegOp) (st : Store σ) (action : JSVal) (e : Err)
    (hplain : isPlainObject action = true)
    (htype : isUndef (objField (actionFields action) "type") = false)
    (hnd : st.isDispatching = false)
    (hthrow : reducer st.currentState action = .error e) :
    (dispatch reducer beh st action).1 = .error e
  ∧ (dispatch reducer beh st action).2.1.currentState = st.currentState
  ∧ (dispatch reducer beh st action).2.1.isDispatching = false
  ∧ ∀ (reducer2 : Reducer σ) (action2 : JSVal) (s2 : σ),
      isPlainObject action2 = true →
      isUndef (objField (actionFields action2) "type") = false →
      reducer2 st.currentState action2 = .ok s2 →
      (dispatch reducer2 beh (dispatch reducer beh st action).2.1 action2).1
        = .ok action2 := by
  rw [dispatch_eq_of_throw reducer beh st action e hplain htype hnd hthrow]
  refine ⟨rfl, rfl, rfl, ?_⟩
  intro reducer2 action2 s2 hplain2 htype2 hok2
  exact dispatch_returns_action reducer2 beh _ action2 s2 hplain2 htype2 rfl hok2

/-- Witness for C1 at a concrete input: a reducer that throws `thrown 7`
against the store holding state `5`, followed by a successful dispatch of
the identity reducer. -/
theorem dispatch_reducer_throw_safety_witness :
    (dispatch throwReducer snapshotScenarioBeh plainStore incAction).1 = .error (.thrown 7)
  ∧ (dispatch throwReducer snapshotScenarioBeh plainStore incAction).2.1.currentState = 5
  ∧ (dispatch throwReducer snapshotScenarioBeh plainStore incAction).2.1.isDispatching = false
  ∧ (dispatch idReducer snapshotScenarioBeh
      (dispatch throwReducer snapshotScenarioBeh plainStore incAction).2.1 incAction).1
      = .ok incAction := by
  have h := dispatch_reducer_throw_safety throwReducer snapshotScenarioBeh plainStore
    incAction (.thrown 7) rfl rfl rfl rfl
  exact ⟨h.1, h.2.1, h.2.2.1, h.2.2.2 idReducer incAction 5 rfl rfl rfl⟩

/-- C3: the listeners invoked during a dispatch's notification phase are
exactly the snapshot `nextListeners` taken when the phase began, in
registration order, for **every** listener behaviour (so subscribes and
unsubscribes performed by listeners during the phase never change which
listeners the phase invokes, only the registry used by the next dispatch);
concretely, with listeners `[L1, L2]` where `L1` unsubscribes `L2` during
notification, that dispatch still invokes `[L1, L2]` and the next dispatch
invokes only `[L1]`. -/
theorem dispatch_listener_snapshot :
    (∀ (σ : Type) (reducer : Reducer σ) (beh : ListenerId → List RegOp)
       (st : Store σ) (action : JSVal) (s' : σ),
        isPlainObject action = true →
        isUndef (objField (actionFields action) "type") = false →
        st.isDispatching = false →
        reducer st.currentState action = .ok s' →
        (dispatch reducer beh st action).2.2 = st.nextListeners)
  ∧ (dispatch idReducer snapshotScenarioBeh snapshotScenarioStore incAction).2.2
      = [1, 2]
  ∧ (dispatch idReducer snapshotScenarioBeh
      (dispatch idReducer snapshotScenarioBeh snapshotScenarioStore incAction).2.1
      incAction).2.2 = [1] := by
  refine ⟨?_, rfl, rfl⟩
  intro σ reducer beh st action s' hplain htype hnd hok
  rw [dispatch_eq_of_ok reducer beh st action s' hplain htype hnd hok]

/-- Witness for C3's universally quantified part at a concrete input. -/
theorem dispatch_listener_snapshot_witness :
    (dispatch idReducer snapshotScenarioBeh snapshotScenarioStore incAction).2.2
      = snapshotScenarioStore.nextListeners :=
  dispatch_listener_snapshot.1 Nat idReducer snapshotScenarioBeh
    snapshotScenarioStore incAction 0 rfl rfl rfl rfl

/-- C8: the unsubscribe closure is idempotent — once its `isSubscribed`
flag is down (a second call, or a call after the listener was removed) it
is a no-op that neither throws nor changes the registry, even while a
dispatch is in flight — a live closure invoked while `isDispatching` fails
with `ReentrantUnsubscribe` and changes nothing, and calling the closure
again right after a successful removal is a no-op. -/
theorem unsubscribe_idempotent_guarded :
    (∀ (σ : Type) (l : ListenerId) (st : Store σ),
        unsubscribe l false st = (.ok (), false, st))
  ∧ (∀ (σ : Type) (l : ListenerId) (st : Store σ), st.isDispatching = true →
        unsubscribe l true st = (.error .reentrantUnsubscribe, true, st))
  ∧ (∀ (σ : Type) (l : ListenerId) (st : Store σ), st.isDispatching = false →
        unsubscribe l (unsubscribe l true st).2.1 (unsubscribe l true st).2.2
          = (.ok (), false, (unsubscribe l true st).2.2)) := by
  refine ⟨fun σ l st => rfl, fun σ l st h => by simp [unsubscribe, h], ?_⟩
  intro σ l st h
  simp [unsubscribe, h]

/-- Witness for C8 at concrete inputs: a dispatching store for the guard
conjunct and a quiescent store for the double-call conjunct. -/
theorem unsubscribe_idempotent_guarded_witness :
    unsubscribe 3 false dispatchingStore = (.ok (), false, dispatchingStore)
  ∧ unsubscribe 3 true dispatchingStore
      = (.error .reentrantUnsubscribe, true, dispatchingStore)
  ∧ unsubscribe 3 (unsubscribe 3 true plainStore).2.1
      (unsubscribe 3 true plainStore).2.2
      = (.ok (), false, (unsubscribe 3 true plainStore).2.2) :=
  ⟨unsubscribe_idempotent_guarded.1 Nat 3 dispatchingStore,
   unsubscribe_idempotent_guarded.2.1 Nat 3 dispatchingStore rfl,
   unsubscribe_idempotent_guarded.2.2 Nat 3 plainStore rfl⟩

/-- Helper: `observable().subscribe` on an object observer, by complete
case analysis on the truthiness and callability of `observer.next` and on
the dispatching flag: a callable `next` gets the current state immediately
and the `observeState` listener is registered; a truthy non-callable `next`
raises the `TypeError` of calling a non-function; a falsy or absent `next`
delivers nothing but still registers the listener; while dispatching,
`getState()` throws inside the immediate delivery when `next` is truthy,
and otherwise the outer `subscribe` throws. -/
theorem observableSubscribe_object {σ : Type} (st : Store σ) (plain : Bool)
    (fields : List (String × JSVal)) (fresh : ListenerId) :
    observableSubscribe st (.object plain fields) fresh
      = if truthy (objField fields "next") then
          if st.isDispatching then (.error .reentrantRead, st)
          else
            match objField fields "next" with
            | .func _ =>
                (.ok { unsubFor := fresh, delivered := some st.currentState },
                 pushListener fresh st)
            | _ => (.error .notAFunction, st)
        else if st.isDispatching then (.error .reentrantSubscribe, st)
        else (.ok { unsubFor := fresh, delivered := none },
              pushListener fresh st) := by
  cases hnv : objField fields "next" <;>
    cases hdisp : st.isDispatching <;>
      simp [observableSubscribe, typeOf, observeState, getField, getState,
        subscribe, truthy, hnv, hdisp] <;>
      split <;> rename_i heq <;> split at heq <;> simp_all

/-- C9 counterexample: the claim fails on the code in three ways.  (1) For
the non-record argument `null`, `typeof null === 'object'` passes the
observer check and the failure is the `TypeError` from reading
`observer.next` off `null`, not the `InvalidObserver` error.  (2) The
plain record `{next: 1}` does not succeed: the source throws a `TypeError`
when it invokes the truthy non-callable `next`.  (3) Even a well-formed
record observer does not succeed while a dispatch is in flight:
`getState()` inside the immediate delivery throws `ReentrantRead`. -/
theorem observable_subscribe_counterexample :
    (observableSubscribe plainStore .null 9
        = (.error .typeErrorNullRead, plainStore)
      ∧ Err.typeErrorNullRead ≠ Err.invalidObserver)
  ∧ observableSubscribe plainStore badNextObserver 9
      = (.error .notAFunction, plainStore)
  ∧ observableSubscribe dispatchingStore goodObserver 9
      = (.error .reentrantRead, dispatchingStore) :=
  ⟨⟨rfl, by decide⟩, rfl, rfl⟩

/-- C9 (amended): `observable().subscribe(observer)` fails with
`InvalidObserver` exactly for arguments whose `typeof` is not `"object"`
(`undefined`, booleans, numbers, strings, functions); `null` passes that
check and fails instead with a `TypeError` from reading `observer.next`;
for every object observer the behaviour is exhaustively: while no dispatch
is in flight — when `observer.next` is a function the call succeeds,
immediately delivers the current state to it, registers the forwarding
`observeState` listener, and returns a subscription whose `unsubscribe`
targets that listener; when `observer.next` is truthy but not callable the
call fails with the `TypeError` of invoking a non-function; when
`observer.next` is absent or falsy the call succeeds the same way without
delivering — and while a dispatch is in flight the call fails, with
`ReentrantRead` when `observer.next` is truthy (`getState()` throws inside
the immediate delivery) and with `ReentrantSubscribe` otherwise. -/
theorem observable_subscribe_spec :
    (∀ (σ : Type) (st : Store σ) (v : JSVal) (fresh : ListenerId),
        typeOf v ≠ "object" →
        observableSubscribe st v fresh = (.error .invalidObserver, st))
  ∧ (∀ (σ : Type) (st : Store σ) (fresh : ListenerId),
        observableSubscribe st .null fresh = (.error .typeErrorNullRead, st))
  ∧ (∀ (σ : Type) (st : Store σ) (plain : Bool) (fields : List (String × JSVal))
       (fresh : ListenerId) (nid : Nat),
        st.isDispatching = false →
        objField fields "next" = .func nid →
        observableSubscribe st (.object plain fields) fresh
          = (.ok { unsubFor := fresh, delivered := some st.currentState },
             pushListener fresh st))
  ∧ (∀ (σ : Type) (st : Store σ) (plain : Bool) (fields : List (String × JSVal))
       (fresh : ListenerId),
        st.isDispatching = false →
        truthy (objField fields "next") = true →
        (∀ nid : Nat, objField fields "next" ≠ .func nid) →
        observableSubscribe st (.object plain fields) fresh
          = (.error .notAFunction, st))
  ∧ (∀ (σ : Type) (st : Store σ) (plain : Bool) (fields : List (String × JSVal))
       (fresh : ListenerId),
        st.isDispatching = false →
        truthy (objField fields "next") = false →
        observableSubscribe st (.object plain fields) fresh
          = (.ok { unsubFor := fresh, delivered := none },
             pushListener fresh st))
  ∧ (∀ (σ : Type) (st : Store σ) (plain : Bool) (fields : List (String × JSVal))
       (fresh : ListenerId),
        st.isDispatching = true →
        truthy (objField fields "next") = true →
        observableSubscribe st (.object plain fields) fresh
          = (.error .reentrantRead, st))
  ∧ (∀ (σ : Type) (st : Store σ) (plain : Bool) (fields : List (String × JSVal))
       (fresh : ListenerId),
        st.isDispatching = true →
        truthy (objField fields "next") = false →
        observableSubscribe st (.object plain fields) fresh
          = (.error .reentrantSubscribe, st)) := by
  refine ⟨?_, ?_, ?_, ?_, ?_, ?_, ?_⟩
  · intro σ st v fresh h
    have hb : (typeOf v != "object") = true := bne_iff_ne.mpr h
    simp [observableSubscribe, hb]
  · intro σ st fresh
    rfl
  · intro σ st plain fields fresh nid hnd hnv
    rw [observableSubscribe_object, hnv]
    simp [truthy, hnd]
  · intro σ st plain fields fresh hnd htr hfun
    rw [observableSubscribe_object, htr, hnd]
    simp only [if_true]
    cases hnv : objField fields "next"
    case func nid => exact absurd hnv (hfun nid)
    all_goals rfl
  · intro σ st plain fields fresh hnd htr
    rw [observableSubscribe_object, htr, hnd]
    rfl
  · intro σ st plain fields fresh hd htr
    rw [observableSubscribe_object, htr, hd]
    rfl
  · intro σ st plain fields fresh hd htr
    rw [observableSubscribe_object, htr, hd]
    rfl

/-- Witness for C9's amended theorem at concrete inputs, one per branch
kind: a non-object observer, a callable `next`, and a truthy non-callable
`next`. -/
theorem observable_subscribe_spec_witness :
    observableSubscribe dispatchingStore (.number 4) 9
      = (.error .invalidObserver, dispatchingStore)
  ∧ observableSubscribe plainStore goodObserver 9
      = (.ok { unsubFor := 9, delivered := some 5 }, pushListener 9 plainStore)
  ∧ observableSubscribe plainStore badNextObserver 9
      = (.error .notAFunction, plainStore) :=
  ⟨observable_subscribe_spec.1 Nat dispatchingStore (.number 4) 9 (by decide),
   observable_subscribe_spec.2.2.1 Nat plainStore true [("next", .func 0)] 9 0
     rfl rfl,
   observable_subscribe_spec.2.2.2.1 Nat plainStore true [("next", .number 1)] 9
     rfl (by decide) (fun nid h => by simp [objField] at h)⟩

/-- Helper: an association list has no binding for a key outside its key
set. -/
theorem lookup_eq_none_of_not_mem_keys {σ : Type} (fields : List (String × σ))
    (k : String) (h : k ∉ fields.map Prod.fst) : fields.lookup k = none := by
  induction fields with
  | nil => rfl
  | cons hd tl ih =>
      simp only [List.map_cons, List.mem_cons, not_or] at h
      obtain ⟨h1, h2⟩ := h
      obtain ⟨key, v⟩ := hd
      simp only [List.lookup]
      rw [beq_eq_false_iff_ne.mpr h1]
      exact ih h2

/-- Helper: when every final reducer returns a present value, the
`combination` loop succeeds with the bindings written in key order and the
accumulated `hasChanged` flag, and under unique keys the `nextState`
binding of each key is exactly that key's reducer result. -/
theorem combinationLoop_spec {σ : Type} [DecidableEq σ]
    (state : List (String × σ)) (action : JSVal)
    (reducers : List (String × SubReducer σ))
    (hnodup : (reducers.map Prod.fst).Nodup)
    (hdef : ∀ p ∈ reducers, (p.2 (state.lookup p.1) action).isSome) :
    ∃ fields,
      combinationLoop state action reducers
        = .ok (fields, changedAny state action reducers)
      ∧ fields.map Prod.fst = reducers.map Prod.fst
      ∧ ∀ p ∈ reducers, fields.lookup p.1 = p.2 (state.lookup p.1) action := by
  induction reducers with
  | nil => exact ⟨[], rfl, rfl, by simp⟩
  | cons hd tl ih =>
      obtain ⟨key, reducer⟩ := hd
      have hhd : (reducer (state.lookup key) action).isSome :=
        hdef (key, reducer) (List.mem_cons_self _ _)
      obtain ⟨v, hv⟩ := Option.isSome_iff_exists.mp hhd
      simp only [List.map_cons, List.nodup_cons] at hnodup
      obtain ⟨hkey, hnodup'⟩ := hnodup
      have hdef' : ∀ p ∈ tl, (p.2 (state.lookup p.1) action).isSome :=
        fun p hp => hdef p (List.mem_cons_of_mem _ hp)
      obtain ⟨fields, hloop, hkeys, hlook⟩ := ih hnodup' hdef'
      refine ⟨(key, v) :: fields, ?_, ?_, ?_⟩
      · simp only [combinationLoop, hv, hloop, changedAny, List.any_cons]
      · simp [hkeys]
      · intro p hp
        rcases List.mem_cons.mp hp with rfl | hp'
        · simp only [List.lookup, beq_self_eq_true]
          exact hv.symm
        · have hne : p.1 ≠ key := by
            intro hcontra
            exact hkey (hcontra ▸ List.mem_map_of_mem Prod.fst hp')
          simp only [List.lookup]
          rw [beq_eq_false_iff_ne.mpr hne]
          exact hlook p hp'

/-- Helper: if some reducer in the mapping fails the initialization probe
or the unknown-type probe, `assertReducerShape` reports an error. -/
theorem assertReducerShape_isSome {σ : Type}
    (reducers : List (String × SubReducer σ))
    (hbad : ∃ p ∈ reducers,
      (p.2 none initAction).isNone ∨ (p.2 none probeAction).isNone) :
    (assertReducerShape reducers).isSome := by
  induction reducers with
  | nil => simp at hbad
  | cons hd tl ih =>
      obtain ⟨key, reducer⟩ := hd
      by_cases h1 : (reducer none initAction).isNone = true
      · simp [assertReducerShape, h1]
      · by_cases h2 : (reducer none probeAction).isNone = true
        · simp [assertReducerShape, h1, h2]
        · have hbad' : ∃ p ∈ tl,
              (p.2 none initAction).isNone ∨ (p.2 none probeAction).isNone := by
            rcases hbad with ⟨p, hp, hbadp⟩
            rcases List.mem_cons.mp hp with rfl | hp'
            · rcases hbadp with h | h
              · exact absurd h h1
              · exact absurd h h2
            · exact ⟨p, hp', hbadp⟩
          simpa [assertReducerShape, h1, h2] using ih hbad'

/-- C7: if any final reducer returns the absent sentinel for the
initialization probe or the unknown-type probe, the `combineReducers` call
itself still completes and returns a composed reducer (the assertion error
is caught and cached), and that cached error is then thrown on the first
invocation of the composed reducer and on every subsequent invocation. -/
theorem combineReducers_defers_and_caches_shape_error :
    ∀ (σ : Type) [DecidableEq σ]
      (reducers : List (String × Option (SubReducer σ))),
      (∃ p ∈ finalReducersOf reducers,
        (p.2 none initAction).isNone ∨ (p.2 none probeAction).isNone) →
      ∃ e, (combineReducers reducers).shapeAssertionError = some e
        ∧ ∀ (state : List (String × σ)) (action : JSVal),
            combination (combineReducers reducers) state action = .error e := by
  intro σ _ reducers hbad
  obtain ⟨e, he⟩ :=
    Option.isSome_iff_exists.mp (assertReducerShape_isSome _ hbad)
  refine ⟨e, ?_, ?_⟩
  · simpa [combineReducers] using he
  · intro state action
    simp [combination, combineReducers, he]

/-- Witness for C7: the mapping `{x: rBad}`, whose only reducer returns the
absent sentinel for every probe. -/
theorem combineReducers_defers_and_caches_shape_error_witness :
    ∃ e, (combineReducers [("x", some rBad)]).shapeAssertionError = some e
      ∧ ∀ (state : List (String × Nat)) (action : JSVal),
          combination (combineReducers [("x", some rBad)]) state action = .error e :=
  combineReducers_defers_and_caches_shape_error Nat [("x", some rBad)]
    ⟨("x", rBad), List.Mem.head _, Or.inl rfl⟩

/-- C2: when every per-key reducer result is identical (by reference) to
its previous per-key state, the composed reducer returns the incoming
top-level `state` object by identity (`.same`); when at least one key's
result differs by identity, it returns a freshly constructed object
(`.new fields`, never reference-equal to `state`) in which every key holds
its reducer's result — so each unchanged key still holds its previous
value by reference and each changed key holds a value that is not its
previous one. -/
theorem combination_reference_stability :
    ∀ (σ : Type) [DecidableEq σ]
      (reducers : List (String × Option (SubReducer σ)))
      (state : List (String × σ)) (action : JSVal),
      (combineReducers reducers).shapeAssertionError = none →
      ((finalReducersOf reducers).map Prod.fst).Nodup →
      (∀ p ∈ finalReducersOf reducers, (p.2 (state.lookup p.1) action).isSome) →
      ((∀ p ∈ finalReducersOf reducers,
          p.2 (state.lookup p.1) action = state.lookup p.1) →
        combination (combineReducers reducers) state action = .ok .same)
    ∧ ((∃ p ∈ finalReducersOf reducers,
          p.2 (state.lookup p.1) action ≠ state.lookup p.1) →
        ∃ fields,
          combination (combineReducers reducers) state action = .ok (.new fields)
          ∧ (∀ p ∈ finalReducersOf reducers,
              fields.lookup p.1 = p.2 (state.lookup p.1) action)
          ∧ (∀ p ∈ finalReducersOf reducers,
              p.2 (state.lookup p.1) action = state.lookup p.1 →
              fields.lookup p.1 = state.lookup p.1)
          ∧ (∀ p ∈ finalReducersOf reducers,
              p.2 (state.lookup p.1) action ≠ state.lookup p.1 →
              fields.lookup p.1 ≠ state.lookup p.1)) := by
  intro σ _ reducers state action hshape hnodup hdef
  obtain ⟨fields, hloop, hkeys, hlook⟩ :=
    combinationLoop_spec state action (finalReducersOf reducers) hnodup hdef
  have hcomb : combination (combineReducers reducers) state action
      = .ok (if changedAny state action (finalReducersOf reducers)
             then CombRes.new fields else CombRes.same) := by
    simp only [combineReducers] at hshape
    simp only [combination, combineReducers, hshape, hloop]
  constructor
  · intro hall
    have hch : changedAny state action (finalReducersOf reducers) = false := by
      simp only [changedAny, List.any_eq_false, bne_iff_ne, ne_eq, not_not]
      exact fun p hp => hall p hp
    rw [hcomb, hch]
    rfl
  · intro hex
    have hch : changedAny state action (finalReducersOf reducers) = true := by
      obtain ⟨p, hp, hne⟩ := hex
      simp only [changedAny, List.any_eq_true]
      exact ⟨p, hp, bne_iff_ne.mpr hne⟩
    rw [hcomb, hch]
    refine ⟨fields, rfl, hlook, ?_, ?_⟩
    · exact fun p hp heq => (hlook p hp).trans heq
    · intro p hp hne
      rw [hlook p hp]
      exact hne

/-- Witness for C2: with `{a: raBump, b: rbKeep}` over state
`{a: 1, b: 2}`, only `a`'s result changes identity, so a new object is
returned whose `b` binding is the previous `b` value by reference and
whose `a` binding is not the previous `a` value. -/
theorem combination_reference_stability_witness :
    ∃ fields,
      combination (combineReducers abMapping) abState incAction = .ok (.new fields)
      ∧ fields.lookup "b" = abState.lookup "b"
      ∧ fields.lookup "a" ≠ abState.lookup "a" := by
  have h := (combination_reference_stability Nat abMapping abState incAction
      rfl (by decide) (by decide)).2
      ⟨("a", raBump), List.Mem.head _, by decide⟩
  obtain ⟨fields, hcomb, _hmain, hkeep, hchange⟩ := h
  refine ⟨fields, hcomb, ?_, ?_⟩
  · exact hkeep ("b", rbKeep) (List.mem_cons_of_mem _ (List.Mem.head _)) (by decide)
  · exact hchange ("a", raBump) (List.Mem.head _) (by decide)

/-- C10: when at least one final-reducer key's result changes by identity,
the freshly constructed state object contains exactly the callable-reducer
keys — a key present in the incoming state but absent from the
final-reducer mapping has no binding in the new object — whereas when no
key changed, the incoming `state` object itself is returned by identity,
so such extra keys survive unchanged. -/
theorem combination_drops_unknown_keys :
    ∀ (σ : Type) [DecidableEq σ]
      (reducers : List (String × Option (SubReducer σ)))
      (state : List (String × σ)) (action : JSVal),
      (combineReducers reducers).shapeAssertionError = none →
      ((finalReducersOf reducers).map Prod.fst).Nodup →
      (∀ p ∈ finalReducersOf reducers, (p.2 (state.lookup p.1) action).isSome) →
      ((∃ p ∈ finalReducersOf reducers,
          p.2 (state.lookup p.1) action ≠ state.lookup p.1) →
        ∃ fields,
          combination (combineReducers reducers) state action = .ok (.new fields)
          ∧ fields.map Prod.fst = (finalReducersOf reducers).map Prod.fst
          ∧ ∀ k, k ∉ (finalReducersOf reducers).map Prod.fst →
              fields.lookup k = none)
    ∧ ((∀ p ∈ finalReducersOf reducers,
          p.2 (state.lookup p.1) action = state.lookup p.1) →
        combination (combineReducers reducers) state action = .ok .same) := by
  intro σ _ reducers state action hshape hnodup hdef
  obtain ⟨fields, hloop, hkeys, _hlook⟩ :=
    combinationLoop_spec state action (finalReducersOf reducers) hnodup hdef
  have hcomb : combination (combineReducers reducers) state action
      = .ok (if changedAny state action (finalReducersOf reducers)
             then CombRes.new fields else CombRes.same) := by
    simp only [combineReducers] at hshape
    simp only [combination, combineReducers, hshape, hloop]
  constructor
  · intro hex
    have hch : changedAny state action (finalReducersOf reducers) = true := by
      obtain ⟨p, hp, hne⟩ := hex
      simp only [changedAny, List.any_eq_true]
      exact ⟨p, hp, bne_iff_ne.mpr hne⟩
    rw [hcomb, hch]
    refine ⟨fields, rfl, hkeys, ?_⟩
    intro k hk
    refine lookup_eq_none_of_not_mem_keys fields k ?_
    rw [hkeys]
    exact hk
  · intro hall
    have hch : changedAny state action (finalReducersOf reducers) = false := by
      simp only [changedAny, List.any_eq_false, bne_iff_ne, ne_eq, not_not]
      exact fun p hp => hall p hp
    rw [hcomb, hch]
    rfl

/-- Witness for C10: over state `{a: 1, b: 2, extra: 9}` with reducers only
for `a` and `b`, a changed dispatch yields a new object with keys exactly
`["a", "b"]` and no `extra` binding. -/
theorem combination_drops_unknown_keys_witness :
    ∃ fields,
      combination (combineReducers abMapping)
        [("a", 1), ("b", 2), ("extra", 9)] incAction = .ok (.new fields)
      ∧ fields.map Prod.fst = ["a", "b"]
      ∧ fields.lookup "extra" = none := by
  have h := (combination_drops_unknown_keys Nat abMapping
      [("a", 1), ("b", 2), ("extra", 9)] incAction rfl (by decide) (by decide)).1
      ⟨("a", raBump), List.Mem.head _, by decide⟩
  obtain ⟨fields, hcomb, hkeys, hdrop⟩ := h
  exact ⟨fields, hcomb, hkeys, hdrop "extra" (by decide)⟩
